import Mathlib

/-!
Verification development for the blockchain network registry service.

The Rust source is shallowly embedded: pure domain logic becomes Lean
functions, fallible operations return `Except`, the repository port is an
oracle record of response functions, and each use-case execution also
returns the ordered trace of repository calls it made.  Timestamps and
freshly generated identifiers are passed in explicitly (the embedding of
`Utc::now()` and `Uuid::new_v4()`).  Strings are Lean strings with
`String.length` standing for Rust's `len()`.
-/

deriving instance DecidableEq for Except

namespace NetworkRegistry

/-- Identifier for a network (embeds the `NetworkId` UUID newtype as an
opaque numeric token). -/
abbrev NetworkId := Nat

/-- Embeds `rust_decimal::Decimal` as an exact rational number; the code
only compares decimals against zero and copies them around. -/
abbrev Decimal := Rat

/-- Embeds `DomainError` from `src/shared/errors/mod.rs`. -/
inductive DomainError where
  | ChainIdConflict (chainId : Int)
  | InvalidState (msg : String)
  | ValidationError (msg : String)
deriving Repr, DecidableEq

/-- The database-error payload of a `sqlx::Error::Database` value: its
optional SQLSTATE code and its message. -/
structure DbError where
  code : Option String
  message : String
deriving Repr, DecidableEq

/-- Embeds `RepositoryError` from `src/shared/errors/mod.rs`.  The
`Database` constructor carries `some e` when the wrapped `sqlx::Error` is
itself a database error with payload `e`, and `none` for any other sqlx
failure (connectivity, decoding, ...). -/
inductive RepositoryError where
  | Database (err : Option DbError)
  | NotFound (what : String)
  | Mapping (msg : String)
  | UniqueViolation (field : String)
deriving Repr, DecidableEq

/-- Whether `needle` occurs at the head of `hay` (character-list version of
Rust's prefix test, used to embed `str::contains`). -/
def leadsWith : List Char → List Char → Bool
  | [], _ => true
  | _ :: _, [] => false
  | a :: as, b :: bs => a == b && leadsWith as bs

/-- Whether `needle` occurs somewhere inside `hay`. -/
def hasSub (needle : List Char) : List Char → Bool
  | [] => needle.isEmpty
  | c :: t => leadsWith needle (c :: t) || hasSub needle t

/-- Embeds Rust's `str::contains(pat)` substring test. -/
def strContains (s pat : String) : Bool :=
  hasSub pat.toList s.toList

/-- Embeds `RepositoryError::is_chain_id_conflict`: a database error with
SQLSTATE 23505 whose message mentions `chain_id`. -/
def RepositoryError.is_chain_id_conflict : RepositoryError → Bool
  | .Database (some e) =>
      if e.code == some "23505" then strContains e.message "chain_id" else false
  | _ => false

/-- Embeds `RepositoryError::into_domain_error`. -/
def RepositoryError.into_domain_error (e : RepositoryError) : RepositoryError :=
  if e.is_chain_id_conflict then
    .UniqueViolation "chain_id already exists"
  else
    e

/-- Embeds `UseCaseError` from `src/shared/errors/mod.rs`. -/
inductive UseCaseError where
  | Validation (errors : List String)
  | NotFound (resource : String) (id : String)
  | Conflict (msg : String)
  | Unauthorized (msg : String)
  | Forbidden (msg : String)
  | Domain (e : DomainError)
  | Repository (e : RepositoryError)
deriving Repr, DecidableEq

/-- Embeds `UseCaseError::status_code` (HTTP status numbers). -/
def UseCaseError.status_code : UseCaseError → Nat
  | .Validation _ => 400
  | .NotFound _ _ => 404
  | .Conflict _ => 409
  | .Unauthorized _ => 401
  | .Forbidden _ => 403
  | .Domain (.ChainIdConflict _) => 409
  | .Domain (.InvalidState _) => 400
  | .Domain (.ValidationError _) => 400
  | .Repository (.UniqueViolation _) => 409
  | .Repository (.NotFound _) => 404
  | .Repository _ => 500

/-- Embeds `UseCaseError::error_code`. -/
def UseCaseError.error_code : UseCaseError → String
  | .Validation _ => "VALIDATION_ERROR"
  | .NotFound _ _ => "NOT_FOUND"
  | .Conflict _ => "CONFLICT"
  | .Unauthorized _ => "UNAUTHORIZED"
  | .Forbidden _ => "FORBIDDEN"
  | .Domain (.ChainIdConflict _) => "CONFLICT"
  | .Domain (.InvalidState _) => "INVALID_STATE"
  | .Domain (.ValidationError _) => "VALIDATION_ERROR"
  | .Repository (.UniqueViolation _) => "CONFLICT"
  | .Repository (.NotFound _) => "NOT_FOUND"
  | .Repository _ => "INTERNAL_ERROR"

/-- `MAX_NAME_LENGTH` from `src/domain/models/network.rs`. -/
def MAX_NAME_LENGTH : Nat := 100

/-- `MAX_URL_LENGTH` from `src/domain/models/network.rs`. -/
def MAX_URL_LENGTH : Nat := 500

/-- `MAX_OTHER_RPC_URLS` from `src/domain/models/network.rs`. -/
def MAX_OTHER_RPC_URLS : Nat := 10

/-- `ETHEREUM_ADDRESS_LENGTH` from `src/domain/models/network.rs`. -/
def ETHEREUM_ADDRESS_LENGTH : Nat := 42

/-- Embeds `CreateNetworkData`. -/
structure CreateNetworkData where
  chain_id : Int
  name : String
  rpc_url : String
  other_rpc_urls : List String
  test_net : Bool
  block_explorer_url : String
  fee_multiplier : Decimal
  gas_limit_multiplier : Decimal
  default_signer_address : String
deriving Repr, DecidableEq

/-- Embeds `CreateNetworkData::validate`: the checks in source order, each
returning the first failure.  The `for` loop over `other_rpc_urls` with an
early return is embedded as `List.find?`. -/
def CreateNetworkData.validate (d : CreateNetworkData) : Except DomainError Unit :=
  if d.chain_id < 1 then
    .error (.ValidationError "chain_id must be at least 1")
  else if d.name.isEmpty || d.name.length > MAX_NAME_LENGTH then
    .error (.ValidationError "name must be between 1 and 100 characters")
  else if d.rpc_url.length > MAX_URL_LENGTH then
    .error (.ValidationError "rpc_url must be at most 500 characters")
  else if d.other_rpc_urls.length > MAX_OTHER_RPC_URLS then
    .error (.ValidationError "other_rpc_urls can have at most 10 items")
  else
    match d.other_rpc_urls.find? (fun url => url.length > MAX_URL_LENGTH) with
    | some _ =>
        .error (.ValidationError "each URL in other_rpc_urls must be at most 500 characters")
    | none =>
        if d.block_explorer_url.length > MAX_URL_LENGTH then
          .error (.ValidationError "block_explorer_url must be at most 500 characters")
        else if d.fee_multiplier < 0 then
          .error (.ValidationError "fee_multiplier must be at least 0")
        else if d.gas_limit_multiplier < 0 then
          .error (.ValidationError "gas_limit_multiplier must be at least 0")
        else if d.default_signer_address.length ≠ ETHEREUM_ADDRESS_LENGTH then
          .error (.ValidationError "default_signer_address must be 42 characters")
        else
          .ok ()

/-- Embeds `UpdateNetworkData` (all fields optional, for merge updates). -/
structure UpdateNetworkData where
  chain_id : Option Int := none
  name : Option String := none
  rpc_url : Option String := none
  other_rpc_urls : Option (List String) := none
  test_net : Option Bool := none
  block_explorer_url : Option String := none
  fee_multiplier : Option Decimal := none
  gas_limit_multiplier : Option Decimal := none
  default_signer_address : Option String := none
  active : Option Bool := none
deriving Repr, DecidableEq

/-- Embeds the `Network` domain entity. -/
structure Network where
  id : NetworkId
  chain_id : Int
  name : String
  rpc_url : String
  other_rpc_urls : List String
  test_net : Bool
  block_explorer_url : String
  fee_multiplier : Decimal
  gas_limit_multiplier : Decimal
  active : Bool
  default_signer_address : String
  created_at : Nat
  updated_at : Nat
deriving Repr, DecidableEq

/-- Embeds `Network::new`.  The fresh UUID and `Utc::now()` are supplied as
the `freshId` and `now` parameters. -/
def Network.new (freshId : NetworkId) (now : Nat) (data : CreateNetworkData) :
    Except DomainError Network :=
  match data.validate with
  | .error e => .error e
  | .ok _ =>
      .ok {
        id := freshId
        chain_id := data.chain_id
        name := data.name
        rpc_url := data.rpc_url
        other_rpc_urls := data.other_rpc_urls
        test_net := data.test_net
        block_explorer_url := data.block_explorer_url
        fee_multiplier := data.fee_multiplier
        gas_limit_multiplier := data.gas_limit_multiplier
        active := true
        default_signer_address := data.default_signer_address
        created_at := now
        updated_at := now
      }

/-- Embeds `Network::with_updates` (merge update); `Utc::now()` is the
`now` parameter. -/
def Network.with_updates (self : Network) (now : Nat) (data : UpdateNetworkData) : Network :=
  { id := self.id
    chain_id := data.chain_id.getD self.chain_id
    name := data.name.getD self.name
    rpc_url := data.rpc_url.getD self.rpc_url
    other_rpc_urls := data.other_rpc_urls.getD self.other_rpc_urls
    test_net := data.test_net.getD self.test_net
    block_explorer_url := data.block_explorer_url.getD self.block_explorer_url
    fee_multiplier := data.fee_multiplier.getD self.fee_multiplier
    gas_limit_multiplier := data.gas_limit_multiplier.getD self.gas_limit_multiplier
    active := data.active.getD self.active
    default_signer_address := data.default_signer_address.getD self.default_signer_address
    created_at := self.created_at
    updated_at := now }

/-- Embeds `Network::deactivate` (soft delete at the entity level). -/
def Network.deactivate (self : Network) (now : Nat) : Network :=
  { self with active := false, updated_at := now }

/-- Embeds Rust's `str::starts_with` on strings (character-level prefix
test). -/
def strStarts (s pat : String) : Bool :=
  leadsWith pat.toList s.toList

/-- Embeds the boundary validator `validate_url` from
`src/infrastructure/driving_adapters/api_rest/dto/network.rs`: the URL must
start with `http://` or `https://` and have a non-empty host part.  The
`strip_prefix` chain is embedded by dropping the protocol characters. -/
def validate_url (url : String) : Except String Unit :=
  if ¬ (strStarts url "http://" || strStarts url "https://") then
    .error "URL must start with http:// or https://"
  else
    let without_protocol :=
      if strStarts url "https://" then url.toList.drop 8
      else if strStarts url "http://" then url.toList.drop 7
      else []
    if without_protocol.isEmpty || leadsWith "/".toList without_protocol then
      .error "URL must include a valid host"
    else
      .ok ()

/-- Whether a character is a hexadecimal digit (the character class
`[a-fA-F0-9]` of the boundary address regex). -/
def isHexChar (c : Char) : Bool :=
  (('0' ≤ c && c ≤ '9') || ('a' ≤ c && c ≤ 'f') || ('A' ≤ c && c ≤ 'F'))

/-- Embeds the boundary validator `validate_ethereum_address`: the regex
match against `0x` followed by exactly 40 hex digits. -/
def validate_ethereum_address (address : String) : Bool :=
  match address.toList with
  | '0' :: 'x' :: rest => rest.length == 40 && rest.all isHexChar
  | _ => false

/-- Embeds the non-optional DTO used by the full-update (PUT) endpoint,
`UpdateNetworkDto`; the `f64` multipliers are modelled as exact decimals
(its `f64_to_decimal` conversion is the identity in this model). -/
structure UpdateNetworkDto where
  chain_id : Int
  name : String
  rpc_url : String
  other_rpc_urls : List String
  test_net : Bool
  block_explorer_url : String
  fee_multiplier : Decimal
  gas_limit_multiplier : Decimal
  default_signer_address : String
deriving Repr, DecidableEq

/-- Embeds `impl From<UpdateNetworkDto> for UpdateNetworkData`: every
business field is provided, and `active` is `none` (cannot update `active`
via PUT). -/
def UpdateNetworkData.ofUpdateDto (dto : UpdateNetworkDto) : UpdateNetworkData :=
  { chain_id := some dto.chain_id
    name := some dto.name
    rpc_url := some dto.rpc_url
    other_rpc_urls := some dto.other_rpc_urls
    test_net := some dto.test_net
    block_explorer_url := some dto.block_explorer_url
    fee_multiplier := some dto.fee_multiplier
    gas_limit_multiplier := some dto.gas_limit_multiplier
    default_signer_address := some dto.default_signer_address
    active := none }

/-- Oracle model of the `NetworkRepository` port: a record of deterministic
response functions standing for one concrete behaviour of the persistence
collaborator. -/
structure RepositoryModel where
  find_by_id : NetworkId → Except RepositoryError (Option Network)
  find_by_chain_id : Int → Except RepositoryError (Option Network)
  find_all_active : Except RepositoryError (List Network)
  create : Network → Except RepositoryError Network
  update : Network → Except RepositoryError (Option Network)
  soft_delete : NetworkId → Except RepositoryError Bool
  exists_by_chain_id : Int → Option NetworkId → Except RepositoryError Bool

/-- One observable call made by a use case against the repository port. -/
inductive RepoCall where
  | findByIdCall (id : NetworkId)
  | existsCall (chainId : Int) (excludeId : Option NetworkId)
  | createCall (n : Network)
  | updateCall (n : Network)
  | softDeleteCall (id : NetworkId)
deriving Repr, DecidableEq

/-- Number of `create` calls in a trace. -/
def countCreateCalls (calls : List RepoCall) : Nat :=
  (calls.filter fun c => match c with | .createCall _ => true | _ => false).length

/-- Number of `exists_by_chain_id` calls in a trace. -/
def countExistsCalls (calls : List RepoCall) : Nat :=
  (calls.filter fun c => match c with | .existsCall _ _ => true | _ => false).length

/-- Number of `update` calls in a trace. -/
def countUpdateCalls (calls : List RepoCall) : Nat :=
  (calls.filter fun c => match c with | .updateCall _ => true | _ => false).length

/-- Embeds `CreateNetworkUseCase::execute`, also returning the ordered
trace of repository calls.  Mirrors the source: existence pre-check, then
domain construction, then `create`; `?` on repository results becomes the
error cases. -/
def createNetworkExecute (repo : RepositoryModel) (freshId : NetworkId) (now : Nat)
    (data : CreateNetworkData) : Except UseCaseError Network × List RepoCall :=
  match repo.exists_by_chain_id data.chain_id none with
  | .error e =>
      (.error (.Repository e), [.existsCall data.chain_id none])
  | .ok true =>
      (.error (.Conflict ("Network with chain_id " ++ toString data.chain_id ++ " already exists")),
       [.existsCall data.chain_id none])
  | .ok false =>
      match Network.new freshId now data with
      | .error e => (.error (.Domain e), [.existsCall data.chain_id none])
      | .ok network =>
          match repo.create network with
          | .error e =>
              (.error (.Repository e),
               [.existsCall data.chain_id none, .createCall network])
          | .ok created =>
              (.ok created, [.existsCall data.chain_id none, .createCall network])

/-- The shared tail of the update protocol: apply the merge update to the
loaded entity and persist it via `update`, translating `Ok(None)` into
NotFound. -/
def persistUpdateStep (repo : RepositoryModel) (now : Nat) (id : NetworkId)
    (existing : Network) (data : UpdateNetworkData) (calls : List RepoCall) :
    Except UseCaseError Network × List RepoCall :=
  let updated := existing.with_updates now data
  match repo.update updated with
  | .error e => (.error (.Repository e), calls ++ [.updateCall updated])
  | .ok none =>
      (.error (.NotFound "Network" (toString id)), calls ++ [.updateCall updated])
  | .ok (some result) => (.ok result, calls ++ [.updateCall updated])

/-- Embeds `PartialUpdateNetworkUseCase::execute` with its call trace:
load by id (nothing yields NotFound), check chain-id uniqueness only when a
different chain id is provided (excluding the current id), then merge and
persist. -/
def partialUpdateNetworkExecute (repo : RepositoryModel) (now : Nat) (id : NetworkId)
    (data : UpdateNetworkData) : Except UseCaseError Network × List RepoCall :=
  match repo.find_by_id id with
  | .error e => (.error (.Repository e), [.findByIdCall id])
  | .ok none => (.error (.NotFound "Network" (toString id)), [.findByIdCall id])
  | .ok (some existing) =>
      match data.chain_id with
      | some newChainId =>
          if newChainId ≠ existing.chain_id then
            match repo.exists_by_chain_id newChainId (some id) with
            | .error e =>
                (.error (.Repository e),
                 [.findByIdCall id, .existsCall newChainId (some id)])
            | .ok true =>
                (.error (.Conflict
                    ("Network with chain_id " ++ toString newChainId ++ " already exists")),
                 [.findByIdCall id, .existsCall newChainId (some id)])
            | .ok false =>
                persistUpdateStep repo now id existing data
                  [.findByIdCall id, .existsCall newChainId (some id)]
          else
            persistUpdateStep repo now id existing data [.findByIdCall id]
      | none => persistUpdateStep repo now id existing data [.findByIdCall id]

/-- Modelled from the spec: `UpdateNetworkUseCase::execute` (the full
update, PUT).  Its source file `update_network.rs` is declared in the use
case module but absent from `src/`; spec section 4.5 states its protocol is
identical to the partial update at the use-case level, the two differing
only in which DTO fields are mandatory at the boundary. -/
def updateNetworkExecute (repo : RepositoryModel) (now : Nat) (id : NetworkId)
    (data : UpdateNetworkData) : Except UseCaseError Network × List RepoCall :=
  match repo.find_by_id id with
  | .error e => (.error (.Repository e), [.findByIdCall id])
  | .ok none => (.error (.NotFound "Network" (toString id)), [.findByIdCall id])
  | .ok (some existing) =>
      match data.chain_id with
      | some newChainId =>
          if newChainId ≠ existing.chain_id then
            match repo.exists_by_chain_id newChainId (some id) with
            | .error e =>
                (.error (.Repository e),
                 [.findByIdCall id, .existsCall newChainId (some id)])
            | .ok true =>
                (.error (.Conflict
                    ("Network with chain_id " ++ toString newChainId ++ " already exists")),
                 [.findByIdCall id, .existsCall newChainId (some id)])
            | .ok false =>
                persistUpdateStep repo now id existing data
                  [.findByIdCall id, .existsCall newChainId (some id)]
          else
            persistUpdateStep repo now id existing data [.findByIdCall id]
      | none => persistUpdateStep repo now id existing data [.findByIdCall id]

/-- Embeds `GetNetworkByIdUseCase::execute` with its call trace. -/
def getNetworkByIdExecute (repo : RepositoryModel) (id : NetworkId) :
    Except UseCaseError Network × List RepoCall :=
  match repo.find_by_id id with
  | .error e => (.error (.Repository e), [.findByIdCall id])
  | .ok none => (.error (.NotFound "Network" (toString id)), [.findByIdCall id])
  | .ok (some network) => (.ok network, [.findByIdCall id])

/-- Embeds `DeleteNetworkUseCase::execute` with its call trace: soft
delete, translating `false` (no row affected) into NotFound. -/
def deleteNetworkExecute (repo : RepositoryModel) (id : NetworkId) :
    Except UseCaseError Unit × List RepoCall :=
  match repo.soft_delete id with
  | .error e => (.error (.Repository e), [.softDeleteCall id])
  | .ok false => (.error (.NotFound "Network" (toString id)), [.softDeleteCall id])
  | .ok true => (.ok (), [.softDeleteCall id])

/-- Embeds the SQL of `PostgresNetworkRepository::find_by_id` over a table
modelled as a list of rows: `SELECT ... FROM networks WHERE id = $1`
matches on the id column only (no condition on `active`). -/
def dbFindById (db : List Network) (id : NetworkId) : Option Network :=
  db.find? (fun row => row.id == id)

/-- Embeds the SQL of `PostgresNetworkRepository::soft_delete`:
`UPDATE networks SET active = false, updated_at = NOW() WHERE id = $1`,
returning the updated table and whether any row was affected (the row is
matched by id only, regardless of its current `active` value). -/
def dbSoftDelete (db : List Network) (now : Nat) (id : NetworkId) :
    List Network × Bool :=
  (db.map fun row =>
      if row.id == id then { row with active := false, updated_at := now } else row,
   db.any fun row => row.id == id)

/-- Stated from the spec's words for the refinement claim about validation
order: the first violated rule in the spec's rule list, in the spec's
order (chainId ≥ 1; name non-empty and ≤ 100; rpcUrl ≤ 500; otherRpcUrls
≤ 10 items, each ≤ 500; blockExplorerUrl ≤ 500; feeMultiplier ≥ 0;
gasLimitMultiplier ≥ 0; defaultSignerAddress exactly 42 chars). -/
def specFirstViolation (d : CreateNetworkData) : Option String :=
  if d.chain_id < 1 then
    some "chain_id must be at least 1"
  else if d.name.isEmpty || d.name.length > 100 then
    some "name must be between 1 and 100 characters"
  else if d.rpc_url.length > 500 then
    some "rpc_url must be at most 500 characters"
  else if d.other_rpc_urls.length > 10 then
    some "other_rpc_urls can have at most 10 items"
  else if d.other_rpc_urls.any (fun url => url.length > 500) then
    some "each URL in other_rpc_urls must be at most 500 characters"
  else if d.block_explorer_url.length > 500 then
    some "block_explorer_url must be at most 500 characters"
  else if d.fee_multiplier < 0 then
    some "fee_multiplier must be at least 0"
  else if d.gas_limit_multiplier < 0 then
    some "gas_limit_multiplier must be at least 0"
  else if d.default_signer_address.length ≠ 42 then
    some "default_signer_address must be 42 characters"
  else
    none

/-- The entity produced by a successful `Network::new`: all fields copied
from the creation data, `active := true`, `createdAt = updatedAt = now`,
and the freshly generated id. -/
def builtNetwork (freshId : NetworkId) (now : Nat) (d : CreateNetworkData) : Network :=
  { id := freshId
    chain_id := d.chain_id
    name := d.name
    rpc_url := d.rpc_url
    other_rpc_urls := d.other_rpc_urls
    test_net := d.test_net
    block_explorer_url := d.block_explorer_url
    fee_multiplier := d.fee_multiplier
    gas_limit_multiplier := d.gas_limit_multiplier
    active := true
    default_signer_address := d.default_signer_address
    created_at := now
    updated_at := now }

/-- The observable outcome of the persist step of an update use case: the
merged entity is written through `update`, and `Ok(None)` becomes
NotFound. -/
def updatePersistOutcome (repo : RepositoryModel) (now : Nat) (id : NetworkId)
    (existing : Network) (data : UpdateNetworkData) : Except UseCaseError Network :=
  match repo.update (existing.with_updates now data) with
  | .error e => .error (.Repository e)
  | .ok none => .error (.NotFound "Network" (toString id))
  | .ok (some r) => .ok r

/-- A valid creation input (the spec's end-to-end example). -/
def sampleCreateData : CreateNetworkData :=
  { chain_id := 1
    name := "Ethereum Mainnet"
    rpc_url := "https://mainnet.infura.io"
    other_rpc_urls := []
    test_net := false
    block_explorer_url := "https://etherscan.io"
    fee_multiplier := 1
    gas_limit_multiplier := Rat.divInt 6 5
    default_signer_address := "0x742d35Cc6634C0532925a3b844Bc9e7595f1dEaD" }

/-- A concrete stored network used by witnesses. -/
def sampleNetwork : Network := builtNetwork 7 0 sampleCreateData

/-- A concrete soft-deleted (inactive) stored network. -/
def inactiveNetwork : Network :=
  { sampleNetwork with id := 9, active := false }

/-- A mock repository whose pre-check reports no chain-id collision and
whose writes succeed. -/
def mockRepoA : RepositoryModel :=
  { find_by_id := fun _ => .ok none
    find_by_chain_id := fun _ => .ok none
    find_all_active := .ok []
    create := fun n => .ok n
    update := fun n => .ok (some n)
    soft_delete := fun _ => .ok false
    exists_by_chain_id := fun _ _ => .ok false }

/-- A mock repository that finds `sampleNetwork` under its id. -/
def mockRepoB : RepositoryModel :=
  { mockRepoA with find_by_id := fun _ => .ok (some sampleNetwork) }

/-- The database error produced by the storage-level unique constraint on
`chain_id`: SQLSTATE 23505 with the constraint name in the message. -/
def c1DbError : DbError :=
  { code := some "23505"
    message := "duplicate key value violates unique constraint networks_chain_id_key" }

/-- The repository error wrapping `c1DbError`. -/
def c1RepoError : RepositoryError := .Database (some c1DbError)

/-- A repository whose pre-check passes but whose insert then hits the
storage unique constraint (the check-then-act race of spec section 5). -/
def c1Repo : RepositoryModel :=
  { mockRepoA with create := fun _ => .error c1RepoError }

/-- Creation data whose `rpc_url` is not an http/https URL but meets every
length rule. -/
def c6UrlData : CreateNetworkData :=
  { sampleCreateData with rpc_url := "ftp://example.com" }

/-- Creation data whose signer address has 42 characters but is not `0x`
followed by 40 hex digits. -/
def c6AddrData : CreateNetworkData :=
  { sampleCreateData with
    default_signer_address := "0xZZZZZZZZZZZZZZZZZZZZZZZZZZZZZZZZZZZZZZZZ" }

/-- A one-row table whose only network is soft-deleted. -/
def c9Db : List Network := [inactiveNetwork]

/-- A repository backed by `c9Db` through the embedded SQL queries. -/
def c9Repo : RepositoryModel :=
  { find_by_id := fun i => .ok (dbFindById c9Db i)
    find_by_chain_id := fun cid => .ok (c9Db.find? (fun row => row.chain_id == cid))
    find_all_active := .ok (c9Db.filter (fun row => row.active))
    create := fun n => .ok n
    update := fun n => .ok (some n)
    soft_delete := fun i => .ok ((dbSoftDelete c9Db 3 i).2)
    exists_by_chain_id := fun _ _ => .ok false }

/-- A mock repository whose pre-check reports an existing chain id. -/
def mockRepoC : RepositoryModel :=
  { mockRepoA with exists_by_chain_id := fun _ _ => .ok true }

/-- A sparse patch payload that changes the chain id and the name. -/
def c3Data : UpdateNetworkData :=
  { chain_id := some 2, name := some "Updated Name" }

/-! Theorems settling the claims. -/

/-- Helper: the embedded `CreateNetworkData::validate` returns exactly the
first violated rule of the spec's ordered rule list. -/
theorem validate_eq_first_violation (d : CreateNetworkData) :
    d.validate =
      match specFirstViolation d with
      | some msg => .error (.ValidationError msg)
      | none => .ok () := by
  simp only [CreateNetworkData.validate, specFirstViolation, MAX_NAME_LENGTH,
    MAX_URL_LENGTH, MAX_OTHER_RPC_URLS, ETHEREUM_ADDRESS_LENGTH]
  cases hf : d.other_rpc_urls.find? (fun url => url.length > 500) with
  | some u =>
      have hmem : u ∈ d.other_rpc_urls := List.mem_of_find?_eq_some hf
      have hp := List.find?_some hf
      have hany : d.other_rpc_urls.any (fun url => url.length > 500) = true :=
        List.any_eq_true.mpr ⟨u, hmem, hp⟩
      simp only [hf, hany]
      simp
      split_ifs <;> rfl
  | none =>
      have hany : d.other_rpc_urls.any (fun url => url.length > 500) = false := by
        rw [List.any_eq_false]
        intro x hx
        exact List.find?_eq_none.mp hf x hx
      simp only [hf, hany]
      simp
      split_ifs <;> rfl

/-- Helper: the persist step writes the merged entity through `update`
exactly once and translates its outcome (`Ok(None)` becoming NotFound). -/
theorem persistUpdateStep_spec (repo : RepositoryModel) (now : Nat) (nid : NetworkId)
    (existing : Network) (data : UpdateNetworkData) (calls : List RepoCall) :
    (persistUpdateStep repo now nid existing data calls).1 =
      updatePersistOutcome repo now nid existing data ∧
    (persistUpdateStep repo now nid existing data calls).2 =
      calls ++ [.updateCall (existing.with_updates now data)] := by
  cases hu : repo.update (existing.with_updates now data) with
  | error e => simp [persistUpdateStep, updatePersistOutcome, hu]
  | ok o => cases o <;> simp [persistUpdateStep, updatePersistOutcome, hu]

/-- Claim C1 (code bug evaluated at the failing input): when the insert
hits the storage-level uniqueness constraint on chain_id (a database error
with SQLSTATE 23505 whose message mentions `chain_id`), the create use case
surfaces the raw repository error, which maps to status 500 and code
INTERNAL_ERROR rather than Conflict/409; the reclassifier
`RepositoryError::into_domain_error` would turn it into a 409 CONFLICT,
but no use case ever invokes it. -/
theorem c1_unique_violation_leaks_as_internal :
    c1RepoError.is_chain_id_conflict = true ∧
    (createNetworkExecute c1Repo 7 5 sampleCreateData).1 = .error (.Repository c1RepoError) ∧
    (UseCaseError.Repository c1RepoError).status_code = 500 ∧
    (UseCaseError.Repository c1RepoError).error_code = "INTERNAL_ERROR" ∧
    c1RepoError.into_domain_error = .UniqueViolation "chain_id already exists" ∧
    (UseCaseError.Repository c1RepoError.into_domain_error).status_code = 409 ∧
    (UseCaseError.Repository c1RepoError.into_domain_error).error_code = "CONFLICT" :=
  ⟨by decide, by decide, by decide, by decide, by decide, by decide, by decide⟩

/-- Claim C7: the error-kind to code/status mapping is exact — validation
maps to VALIDATION_ERROR/400, not-found to NOT_FOUND/404, conflict to
CONFLICT/409, unauthorized to UNAUTHORIZED/401, forbidden to
FORBIDDEN/403, and internal/persistence failures (database or mapping
repository errors) to status 500. -/
theorem c7_error_kind_mapping :
    ∀ (msgs : List String) (res i m : String) (dbe : Option DbError),
      (UseCaseError.Validation msgs).status_code = 400 ∧
      (UseCaseError.Validation msgs).error_code = "VALIDATION_ERROR" ∧
      (UseCaseError.NotFound res i).status_code = 404 ∧
      (UseCaseError.NotFound res i).error_code = "NOT_FOUND" ∧
      (UseCaseError.Conflict m).status_code = 409 ∧
      (UseCaseError.Conflict m).error_code = "CONFLICT" ∧
      (UseCaseError.Unauthorized m).status_code = 401 ∧
      (UseCaseError.Unauthorized m).error_code = "UNAUTHORIZED" ∧
      (UseCaseError.Forbidden m).status_code = 403 ∧
      (UseCaseError.Forbidden m).error_code = "FORBIDDEN" ∧
      (UseCaseError.Repository (.Database dbe)).status_code = 500 ∧
      (UseCaseError.Repository (.Database dbe)).error_code = "INTERNAL_ERROR" ∧
      (UseCaseError.Repository (.Mapping m)).status_code = 500 ∧
      (UseCaseError.Repository (.Mapping m)).error_code = "INTERNAL_ERROR" := by
  intro msgs res i m dbe
  exact ⟨rfl, rfl, rfl, rfl, rfl, rfl, rfl, rfl, rfl, rfl, rfl, rfl, rfl, rfl⟩

/-- Claim C5: the merge update preserves `id` and `createdAt`, always
moves `updatedAt` to the (strictly later) current time even when no field
is provided, takes the provided value for every present field and keeps
the existing value for every absent field — and, never re-running
validation, it is total on arbitrary update data. -/
theorem c5_merge_update_frame :
    ∀ (e : Network) (d : UpdateNetworkData) (now : Nat),
      e.updated_at < now →
      (e.with_updates now d).id = e.id ∧
      (e.with_updates now d).created_at = e.created_at ∧
      e.updated_at < (e.with_updates now d).updated_at ∧
      (∀ v, d.chain_id = some v → (e.with_updates now d).chain_id = v) ∧
      (d.chain_id = none → (e.with_updates now d).chain_id = e.chain_id) ∧
      (∀ v, d.name = some v → (e.with_updates now d).name = v) ∧
      (d.name = none → (e.with_updates now d).name = e.name) ∧
      (∀ v, d.rpc_url = some v → (e.with_updates now d).rpc_url = v) ∧
      (d.rpc_url = none → (e.with_updates now d).rpc_url = e.rpc_url) ∧
      (∀ v, d.other_rpc_urls = some v → (e.with_updates now d).other_rpc_urls = v) ∧
      (d.other_rpc_urls = none →
        (e.with_updates now d).other_rpc_urls = e.other_rpc_urls) ∧
      (∀ v, d.test_net = some v → (e.with_updates now d).test_net = v) ∧
      (d.test_net = none → (e.with_updates now d).test_net = e.test_net) ∧
      (∀ v, d.block_explorer_url = some v →
        (e.with_updates now d).block_explorer_url = v) ∧
      (d.block_explorer_url = none →
        (e.with_updates now d).block_explorer_url = e.block_explorer_url) ∧
      (∀ v, d.fee_multiplier = some v → (e.with_updates now d).fee_multiplier = v) ∧
      (d.fee_multiplier = none →
        (e.with_updates now d).fee_multiplier = e.fee_multiplier) ∧
      (∀ v, d.gas_limit_multiplier = some v →
        (e.with_updates now d).gas_limit_multiplier = v) ∧
      (d.gas_limit_multiplier = none →
        (e.with_updates now d).gas_limit_multiplier = e.gas_limit_multiplier) ∧
      (∀ v, d.default_signer_address = some v →
        (e.with_updates now d).default_signer_address = v) ∧
      (d.default_signer_address = none →
        (e.with_updates now d).default_signer_address = e.default_signer_address) ∧
      (∀ v, d.active = some v → (e.with_updates now d).active = v) ∧
      (d.active = none → (e.with_updates now d).active = e.active) := by
  intro e d now h
  refine ⟨rfl, rfl, h, ?_, ?_, ?_, ?_, ?_, ?_, ?_, ?_, ?_, ?_, ?_, ?_, ?_, ?_, ?_, ?_,
    ?_, ?_, ?_, ?_⟩ <;>
    first
      | (intro v hv; simp [Network.with_updates, hv])
      | (intro hn; simp [Network.with_updates, hn])

/-- Witness for C5 at a concrete entity, a sparse update and a later
clock. -/
theorem c5_merge_update_frame_witness :
    sampleNetwork.updated_at < 4 ∧
    (sampleNetwork.with_updates 4 { name := some "Polygon" }).id = sampleNetwork.id ∧
    (sampleNetwork.with_updates 4 { name := some "Polygon" }).name = "Polygon" ∧
    (sampleNetwork.with_updates 4 { name := some "Polygon" }).chain_id =
      sampleNetwork.chain_id ∧
    sampleNetwork.updated_at <
      (sampleNetwork.with_updates 4 { name := some "Polygon" }).updated_at := by
  have h := c5_merge_update_frame sampleNetwork { name := some "Polygon" } 4 (by decide)
  exact ⟨by decide, h.1, h.2.2.2.2.2.1 "Polygon" rfl, h.2.2.2.2.1 rfl, h.2.2.1⟩

/-- Claim C8: the PUT conversion never carries an `active` value, so a
full update always preserves the stored `active` flag — in particular an
inactive network stays inactive under PUT — while a patch providing
`active := some true` does reactivate. -/
theorem c8_put_cannot_change_active :
    ∀ (dto : UpdateNetworkDto) (e : Network) (now : Nat) (d : UpdateNetworkData),
      (UpdateNetworkData.ofUpdateDto dto).active = none ∧
      (e.with_updates now (UpdateNetworkData.ofUpdateDto dto)).active = e.active ∧
      (e.active = false →
        (e.with_updates now (UpdateNetworkData.ofUpdateDto dto)).active = false) ∧
      (d.active = some true → (e.with_updates now d).active = true) := by
  intro dto e now d
  refine ⟨rfl, rfl, fun h => ?_, fun h => ?_⟩
  · simp [Network.with_updates, UpdateNetworkData.ofUpdateDto, h]
  · simp [Network.with_updates, h]

/-- Witness for C8: a concrete inactive network stays inactive under the
PUT conversion of a concrete DTO, and a patch with `active := some true`
reactivates it. -/
theorem c8_put_cannot_change_active_witness :
    inactiveNetwork.active = false ∧
    (inactiveNetwork.with_updates 4
      (UpdateNetworkData.ofUpdateDto
        { chain_id := 2, name := "Polygon", rpc_url := "https://polygon-rpc.com",
          other_rpc_urls := [], test_net := false,
          block_explorer_url := "https://polygonscan.com", fee_multiplier := 1,
          gas_limit_multiplier := 1,
          default_signer_address := "0x742d35Cc6634C0532925a3b844Bc9e7595f1dEaD" })).active
      = false ∧
    (inactiveNetwork.with_updates 4 { active := some true }).active = true := by
  have h := c8_put_cannot_change_active
    { chain_id := 2, name := "Polygon", rpc_url := "https://polygon-rpc.com",
      other_rpc_urls := [], test_net := false,
      block_explorer_url := "https://polygonscan.com", fee_multiplier := 1,
      gas_limit_multiplier := 1,
      default_signer_address := "0x742d35Cc6634C0532925a3b844Bc9e7595f1dEaD" }
    inactiveNetwork 4 { active := some true }
  exact ⟨by decide, h.2.2.1 (by decide), h.2.2.2 rfl⟩

/-- Claim C4: `Network::new` either yields an entity with `active = true`,
the freshly generated id and `createdAt = updatedAt = now` (when every
field satisfies its rule), or fails with a ValidationError naming the
first violated rule, the rules being checked in exactly the spec's order
(chainId, name, rpcUrl, otherRpcUrls count, each other URL, explorer URL,
fee multiplier, gas multiplier, signer-address length). -/
theorem c4_new_first_violation_order :
    ∀ (freshId : NetworkId) (now : Nat) (d : CreateNetworkData),
      Network.new freshId now d =
        match specFirstViolation d with
        | some msg => .error (.ValidationError msg)
        | none => .ok (builtNetwork freshId now d) := by
  intro freshId now d
  cases hs : specFirstViolation d with
  | some msg =>
      simp only [Network.new, validate_eq_first_violation d, hs]
  | none =>
      simp only [Network.new, validate_eq_first_violation d, hs, builtNetwork]

/-- Counterexample for claim C6: the boundary validators reject an
`rpc_url` that is not an http/https URL and a 42-character signer address
that is not 0x-plus-40-hex-digits, yet `Network::new` accepts both inputs
— the domain layer does not enforce the URL-shape or address-regex
rules. -/
theorem c6_counterexample :
    validate_url c6UrlData.rpc_url = .error "URL must start with http:// or https://" ∧
    Network.new 3 4 c6UrlData = .ok (builtNetwork 3 4 c6UrlData) ∧
    validate_ethereum_address c6AddrData.default_signer_address = false ∧
    c6AddrData.default_signer_address.length = 42 ∧
    Network.new 3 4 c6AddrData = .ok (builtNetwork 3 4 c6AddrData) :=
  ⟨by decide, by decide, by decide, by decide, by decide⟩

/-- Claim C6 as amended: the two layers do not enforce the same rule set.
`Network::new` checks only the numeric and length rules — any input
meeting them is accepted regardless of URL shape or address characters;
URL-shape and address-regex validation exist only at the DTO boundary. -/
theorem c6_amended_domain_checks_lengths_only :
    ∀ (freshId : NetworkId) (now : Nat) (d : CreateNetworkData),
      1 ≤ d.chain_id →
      d.name.isEmpty = false →
      d.name.length ≤ MAX_NAME_LENGTH →
      d.rpc_url.length ≤ MAX_URL_LENGTH →
      d.other_rpc_urls.length ≤ MAX_OTHER_RPC_URLS →
      (∀ u ∈ d.other_rpc_urls, u.length ≤ MAX_URL_LENGTH) →
      d.block_explorer_url.length ≤ MAX_URL_LENGTH →
      0 ≤ d.fee_multiplier →
      0 ≤ d.gas_limit_multiplier →
      d.default_signer_address.length = ETHEREUM_ADDRESS_LENGTH →
      Network.new freshId now d = .ok (builtNetwork freshId now d) := by
  intro freshId now d h1 h2 h3 h4 h5 h6 h7 h8 h9 h10
  have hs : specFirstViolation d = none := by
    simp only [specFirstViolation, MAX_NAME_LENGTH, MAX_URL_LENGTH, MAX_OTHER_RPC_URLS,
      ETHEREUM_ADDRESS_LENGTH] at *
    have hany : d.other_rpc_urls.any (fun url => url.length > 500) = false := by
      rw [List.any_eq_false]
      intro x hx
      simpa using Nat.not_lt.mpr (h6 x hx)
    rw [if_neg (by omega), if_neg (by simp [h2]; omega), if_neg (by omega),
      if_neg (by omega)]
    rw [hany]
    simp only [Bool.false_eq_true, if_false]
    rw [if_neg (by omega), if_neg (by exact not_lt.mpr h8), if_neg (by exact not_lt.mpr h9),
      if_neg (by omega)]
  simp only [Network.new, validate_eq_first_violation d, hs, builtNetwork]

/-- Witness for the amended C6 at the concrete ftp-URL input: every
length rule holds, the boundary URL validator rejects it, and the domain
constructor accepts it. -/
theorem c6_amended_witness :
    validate_url c6UrlData.rpc_url ≠ .ok () ∧
    Network.new 3 7 c6UrlData = .ok (builtNetwork 3 7 c6UrlData) := by
  refine ⟨by decide, ?_⟩
  exact c6_amended_domain_checks_lengths_only 3 7 c6UrlData (by decide) (by decide)
    (by decide) (by decide) (by decide) (by decide) (by decide) (by decide) (by decide)
    (by decide)

/-- Claim C2: the create use case fails with Conflict and never calls
`create` when the chain-id pre-check reports an existing network; when the
pre-check reports none and the data is valid, `create` is called exactly
once on the constructed entity and its result is returned (errors wrapped
as repository errors). -/
theorem c2_create_protocol :
    ∀ (repo : RepositoryModel) (freshId : NetworkId) (now : Nat) (data : CreateNetworkData),
      (repo.exists_by_chain_id data.chain_id none = .ok true →
        (createNetworkExecute repo freshId now data).1 =
          .error (.Conflict ("Network with chain_id " ++ toString data.chain_id ++
            " already exists")) ∧
        countCreateCalls (createNetworkExecute repo freshId now data).2 = 0) ∧
      (repo.exists_by_chain_id data.chain_id none = .ok false →
        data.validate = .ok () →
        ∃ network, Network.new freshId now data = .ok network ∧
          countCreateCalls (createNetworkExecute repo freshId now data).2 = 1 ∧
          (createNetworkExecute repo freshId now data).2 =
            [.existsCall data.chain_id none, .createCall network] ∧
          (createNetworkExecute repo freshId now data).1 =
            (repo.create network).mapError UseCaseError.Repository) := by
  intro repo freshId now data
  constructor
  · intro hex
    simp [createNetworkExecute, hex, countCreateCalls]
  · intro hex hval
    cases hnew : Network.new freshId now data with
    | error e =>
        simp [Network.new, hval] at hnew
    | ok network =>
        refine ⟨network, rfl, ?_, ?_, ?_⟩ <;>
          cases hc : repo.create network <;>
            simp [createNetworkExecute, hex, hnew, hc, countCreateCalls, Except.mapError]

/-- Witness for C2: with a repository whose pre-check reports a collision
the outcome is Conflict with no create call, and with one reporting none
the valid sample data is created exactly once. -/
theorem c2_create_protocol_witness :
    mockRepoC.exists_by_chain_id sampleCreateData.chain_id none = .ok true ∧
    (createNetworkExecute mockRepoC 7 5 sampleCreateData).1 =
      .error (.Conflict ("Network with chain_id " ++ toString sampleCreateData.chain_id ++
        " already exists")) ∧
    countCreateCalls (createNetworkExecute mockRepoC 7 5 sampleCreateData).2 = 0 ∧
    mockRepoA.exists_by_chain_id sampleCreateData.chain_id none = .ok false ∧
    sampleCreateData.validate = .ok () ∧
    ∃ network, Network.new 7 5 sampleCreateData = .ok network ∧
      countCreateCalls (createNetworkExecute mockRepoA 7 5 sampleCreateData).2 = 1 ∧
      (createNetworkExecute mockRepoA 7 5 sampleCreateData).1 =
        (mockRepoA.create network).mapError UseCaseError.Repository := by
  have hc := (c2_create_protocol mockRepoC 7 5 sampleCreateData).1 rfl
  have ho := (c2_create_protocol mockRepoA 7 5 sampleCreateData).2 rfl (by decide)
  obtain ⟨network, hn1, hn2, _hn3, hn4⟩ := ho
  exact ⟨rfl, hc.1, hc.2, rfl, by decide, network, hn1, hn2, hn4⟩

/-- Claim C9: lookup by id does not filter on the `active` flag — with
the repository answering from the embedded `WHERE id = $1` query, the
get-by-id use case returns whatever row has the id (active or
soft-deleted), and NotFound arises only when no row with the id exists. -/
theorem c9_get_by_id_ignores_active :
    ∀ (repo : RepositoryModel) (db : List Network) (nid : NetworkId),
      repo.find_by_id nid = .ok (dbFindById db nid) →
      (∀ n, dbFindById db nid = some n →
        (getNetworkByIdExecute repo nid).1 = .ok n) ∧
      (dbFindById db nid = none →
        (getNetworkByIdExecute repo nid).1 =
          .error (.NotFound "Network" (toString nid))) := by
  intro repo db nid hrepo
  constructor
  · intro n hn
    simp [getNetworkByIdExecute, hrepo, hn]
  · intro hn
    simp [getNetworkByIdExecute, hrepo, hn]

/-- Witness for C9: a soft-deleted (inactive) stored network is still
returned by the get-by-id use case, with `active = false`. -/
theorem c9_get_by_id_ignores_active_witness :
    inactiveNetwork.active = false ∧
    (getNetworkByIdExecute c9Repo 9).1 = .ok inactiveNetwork :=
  ⟨by decide,
   (c9_get_by_id_ignores_active c9Repo c9Db 9 rfl).1 inactiveNetwork (by decide)⟩

/-- Claim C10: the embedded soft-delete SQL matches the row by id alone,
so the delete use case reports success whenever a row with the id exists
— even one already inactive — setting `active := false` and refreshing
`updatedAt` again; it fails with NotFound only when no row with the id
exists. -/
theorem c10_soft_delete_ignores_active :
    ∀ (repo : RepositoryModel) (db : List Network) (now : Nat) (nid : NetworkId),
      repo.soft_delete nid = .ok (dbSoftDelete db now nid).2 →
      ((db.any fun row => row.id == nid) = true →
        (deleteNetworkExecute repo nid).1 = .ok () ∧
        ∀ row ∈ (dbSoftDelete db now nid).1, row.id = nid →
          row.active = false ∧ row.updated_at = now) ∧
      ((db.any fun row => row.id == nid) = false →
        (deleteNetworkExecute repo nid).1 =
          .error (.NotFound "Network" (toString nid))) := by
  intro repo db now nid hrepo
  constructor
  · intro hany
    have h2 : (dbSoftDelete db now nid).2 = true := by
      simp [dbSoftDelete, hany]
    constructor
    · simp [deleteNetworkExecute, hrepo, h2]
    · intro row hrow hid
      simp only [dbSoftDelete, List.mem_map] at hrow
      obtain ⟨orig, _horig, heq⟩ := hrow
      by_cases hb : orig.id == nid
      · rw [if_pos hb] at heq
        rw [← heq]
        exact ⟨rfl, rfl⟩
      · rw [if_neg hb] at heq
        rw [← heq] at hid
        exact absurd hid (by simpa using hb)
  · intro hany
    have h2 : (dbSoftDelete db now nid).2 = false := by
      simp [dbSoftDelete, hany]
    simp [deleteNetworkExecute, hrepo, h2]

/-- Witness for C10: soft-deleting the already-inactive stored network
still succeeds, and the stored row ends inactive with its `updatedAt`
refreshed to the new clock value. -/
theorem c10_soft_delete_ignores_active_witness :
    inactiveNetwork.active = false ∧
    (deleteNetworkExecute c9Repo 9).1 = .ok () ∧
    (dbSoftDelete c9Db 3 9).1 =
      [{ inactiveNetwork with active := false, updated_at := 3 }] := by
  have h := (c10_soft_delete_ignores_active c9Repo c9Db 3 9 rfl).1 (by decide)
  exact ⟨by decide, h.1, by decide⟩

/-- Claim C3: in the update/partial-update protocol, a missing target
yields NotFound with neither `exists_by_chain_id` nor `update` called;
`exists_by_chain_id` is invoked only when the incoming data provides a
chain id different from the current one, and then with the current id
excluded, failing with Conflict (and never calling `update`) when it
reports a collision; otherwise the merge result is persisted via `update`,
whose empty result yields NotFound.  The full-update use case (modelled
from the spec) runs the identical protocol. -/
theorem c3_update_protocol :
    ∀ (repo : RepositoryModel) (now : Nat) (nid : NetworkId) (data : UpdateNetworkData),
      (repo.find_by_id nid = .ok none →
        (partialUpdateNetworkExecute repo now nid data).1 =
          .error (.NotFound "Network" (toString nid)) ∧
        countExistsCalls (partialUpdateNetworkExecute repo now nid data).2 = 0 ∧
        countUpdateCalls (partialUpdateNetworkExecute repo now nid data).2 = 0) ∧
      (∀ existing, repo.find_by_id nid = .ok (some existing) →
        ((data.chain_id = none ∨ data.chain_id = some existing.chain_id) →
          countExistsCalls (partialUpdateNetworkExecute repo now nid data).2 = 0 ∧
          RepoCall.updateCall (existing.with_updates now data) ∈
            (partialUpdateNetworkExecute repo now nid data).2 ∧
          (partialUpdateNetworkExecute repo now nid data).1 =
            updatePersistOutcome repo now nid existing data) ∧
        (∀ newChainId, data.chain_id = some newChainId →
          newChainId ≠ existing.chain_id →
          RepoCall.existsCall newChainId (some nid) ∈
            (partialUpdateNetworkExecute repo now nid data).2 ∧
          (repo.exists_by_chain_id newChainId (some nid) = .ok true →
            (partialUpdateNetworkExecute repo now nid data).1 =
              .error (.Conflict ("Network with chain_id " ++ toString newChainId ++
                " already exists")) ∧
            countUpdateCalls (partialUpdateNetworkExecute repo now nid data).2 = 0) ∧
          (repo.exists_by_chain_id newChainId (some nid) = .ok false →
            RepoCall.updateCall (existing.with_updates now data) ∈
              (partialUpdateNetworkExecute repo now nid data).2 ∧
            (partialUpdateNetworkExecute repo now nid data).1 =
              updatePersistOutcome repo now nid existing data))) ∧
      updateNetworkExecute repo now nid data =
        partialUpdateNetworkExecute repo now nid data := by
  intro repo now nid data
  refine ⟨?_, ?_, rfl⟩
  · intro hfind
    simp [partialUpdateNetworkExecute, hfind, countExistsCalls, countUpdateCalls]
  · intro existing hfind
    constructor
    · intro hchain
      have hps := persistUpdateStep_spec repo now nid existing data [.findByIdCall nid]
      rcases hchain with hnone | hsame
      · have hrun : partialUpdateNetworkExecute repo now nid data =
            persistUpdateStep repo now nid existing data [.findByIdCall nid] := by
          simp [partialUpdateNetworkExecute, hfind, hnone]
        rw [hrun, hps.1, hps.2]
        refine ⟨?_, by simp, rfl⟩
        simp [countExistsCalls]
      · have hrun : partialUpdateNetworkExecute repo now nid data =
            persistUpdateStep repo now nid existing data [.findByIdCall nid] := by
          simp [partialUpdateNetworkExecute, hfind, hsame]
        rw [hrun, hps.1, hps.2]
        refine ⟨?_, by simp, rfl⟩
        simp [countExistsCalls]
    · intro newChainId hsome hne
      cases hex : repo.exists_by_chain_id newChainId (some nid) with
      | error e =>
          refine ⟨?_, ?_, ?_⟩
          · simp [partialUpdateNetworkExecute, hfind, hsome, hne, hex]
          · intro htrue
            exact Except.noConfusion htrue
          · intro hfalse
            exact Except.noConfusion hfalse
      | ok b =>
          cases b with
          | true =>
              refine ⟨?_, ?_, ?_⟩
              · simp [partialUpdateNetworkExecute, hfind, hsome, hne, hex]
              · intro _
                constructor
                · simp [partialUpdateNetworkExecute, hfind, hsome, hne, hex]
                · simp [partialUpdateNetworkExecute, hfind, hsome, hne, hex,
                    countUpdateCalls]
              · intro hfalse
                injection hfalse with hb
                exact Bool.noConfusion hb
          | false =>
              have hps := persistUpdateStep_spec repo now nid existing data
                [.findByIdCall nid, .existsCall newChainId (some nid)]
              have hrun : partialUpdateNetworkExecute repo now nid data =
                  persistUpdateStep repo now nid existing data
                    [.findByIdCall nid, .existsCall newChainId (some nid)] := by
                simp [partialUpdateNetworkExecute, hfind, hsome, hne, hex]
              refine ⟨?_, ?_, ?_⟩
              · rw [hrun, hps.2]
                simp
              · intro htrue
                injection htrue with hb
                exact Bool.noConfusion hb
              · intro _
                rw [hrun, hps.1, hps.2]
                exact ⟨by simp, rfl⟩

/-- Witness for C3: at a concrete repository holding `sampleNetwork`, a
patch moving the chain id to a fresh value makes the uniqueness check with
the current id excluded and persists the merge result through `update`. -/
theorem c3_update_protocol_witness :
    mockRepoB.find_by_id 7 = .ok (some sampleNetwork) ∧
    c3Data.chain_id = some 2 ∧
    (2 : Int) ≠ sampleNetwork.chain_id ∧
    mockRepoB.exists_by_chain_id 2 (some 7) = .ok false ∧
    RepoCall.existsCall 2 (some 7) ∈
      (partialUpdateNetworkExecute mockRepoB 4 7 c3Data).2 ∧
    (partialUpdateNetworkExecute mockRepoB 4 7 c3Data).1 =
      updatePersistOutcome mockRepoB 4 7 sampleNetwork c3Data := by
  have h := ((c3_update_protocol mockRepoB 4 7 c3Data).2.1 sampleNetwork rfl).2
    2 rfl (by decide)
  exact ⟨rfl, rfl, by decide, rfl, h.1, (h.2.2 rfl).2⟩

end NetworkRegistry
